import Mathlib

/-!
Verification of `ldap-passwd-webui` (src/app.py) against its specification.

The development shallowly embeds the core of `app.py`:
  * the Python string primitives the code relies on (`str.lower`, `str.upper`,
    `str.isspace`, `str.rstrip`, the substring test `in`, `str.split`,
    `str.capitalize`) restricted to the ASCII behaviour exercised by the code;
  * `password_is_strong` (the strength validator), together with the warning
    messages it logs;
  * the error classification performed by `change_password`;
  * the two adapter variants `change_password_ldap` / `change_password_ad`,
    embedded as the trace of ldap3 operations they issue;
  * the orchestrator `change_passwords`, embedded as a trace of per-backend
    `change_password` invocations plus the final outcome;
  * the HTTP handler `post_index` (the part in scope: confirmation check,
    strength check, orchestration, error rendering).
-/

/-! ## Python string primitives (ASCII fragment used by app.py) -/

/-- Python `str.lower` on one ASCII character. -/
def py_lower_char (c : Char) : Char :=
  if 65 ≤ c.toNat ∧ c.toNat ≤ 90 then Char.ofNat (c.toNat + 32) else c

/-- Python `str.upper` on one ASCII character. -/
def py_upper_char (c : Char) : Char :=
  if 97 ≤ c.toNat ∧ c.toNat ≤ 122 then Char.ofNat (c.toNat - 32) else c

/-- Python `str.lower` over a string given as its character list. -/
def py_lower (s : List Char) : List Char := s.map py_lower_char

/-- Python `str.upper` over a string given as its character list. -/
def py_upper (s : List Char) : List Char := s.map py_upper_char

/-- Membership in Python's whitespace class (ASCII part): space, tab,
newline, carriage return, vertical tab, form feed. -/
def py_isspace_char (c : Char) : Bool :=
  c == ' ' || c == '\t' || c == '\n' || c == Char.ofNat 13 ||
  c == Char.ofNat 11 || c == Char.ofNat 12

/-- Python `str.isspace`: true iff the string is non-empty and every
character is whitespace. -/
def py_isspace (s : List Char) : Bool :=
  !s.isEmpty && s.all py_isspace_char

/-- Python `str.rstrip()` (no argument): drop trailing whitespace. -/
def py_rstrip (s : List Char) : List Char :=
  (s.reverse.dropWhile py_isspace_char).reverse

/-- Python's substring test `pat in hay` on strings. -/
def py_substring (pat : List Char) : List Char → Bool
  | [] => pat.isEmpty
  | c :: rest => pat.isPrefixOf (c :: rest) || py_substring pat rest

/-- Python `str.capitalize`: first character upper-cased, the rest
lower-cased. -/
def py_capitalize (s : List Char) : List Char :=
  match s with
  | [] => []
  | c :: rest => py_upper_char c :: rest.map py_lower_char

/-! ## Strength validator (`password_is_strong`, app.py lines 148-178) -/

/-- ASCII apostrophe, kept out of string literals. -/
def apostrophe_char : Char := Char.ofNat 39

/-- ASCII backtick. -/
def backtick_char : Char := Char.ofNat 96

/-- The fixed punctuation set of the `special_required` check
(app.py line 165). -/
def special_chars : List Char :=
  ['!', '"', '#', '$', '%', '&', apostrophe_char, '(', ')', '*', '+', ',',
   '-', '.', '/', ':', ';', '<', '=', '>', '?', '@', '[', '\\', ']', '^',
   '_', backtick_char, Char.ofNat 123, '|', Char.ofNat 125, '~']

/-- The `password_checker` configuration section. `none` fields model keys
absent from the section - `conf.getint` / `conf.getboolean` defaults apply.
`dictionary_file` holds the lines of the configured wordlist exactly as
Python file iteration yields them (each line keeps its trailing newline;
the last may lack one; no line is the empty string). -/
structure PasswordChecker where
  min_length : Option Nat
  mixed_case_required : Option Bool
  digit_required : Option Bool
  special_required : Option Bool
  dictionary_check_enabled : Option Bool
  dictionary_file : List String

/-- The dictionary loop of `password_is_strong` (app.py lines 170-176):
scan the wordlist lines, skip whitespace-only lines, and report whether some
line's `rstrip().lower()` pattern occurs in the lower-cased password. -/
def dictionary_scan (dict : List String) (password : String) : Bool :=
  dict.any (fun line =>
    !py_isspace line.data &&
      py_substring (py_lower (py_rstrip line.data)) (py_lower password.data))

/-- Warning logged when the length check fails (app.py line 155). -/
def too_short_msg : String := "Password is weak because it is too short."

/-- Warning logged when the dictionary check fails (app.py line 175). -/
def dict_msg : String :=
  "Password is weak because its part is present in dictionary."

/-- Embedding of `password_is_strong` (app.py lines 148-178) together with
the `LOG.warning` messages it emits. The `checker` argument is the
`password_checker` section of the global `CONF` (`none` when the section is
absent, in which case the function returns `True` immediately). The result
pair is (returned boolean, logged warnings in order). -/
def password_is_strong_log (checker : Option PasswordChecker)
    (password : String) : Bool × List String :=
  match checker with
  | none => (true, [])
  | some conf =>
    if password.length < conf.min_length.getD 8 then
      (false, [too_short_msg])
    else if conf.mixed_case_required.getD false &&
        (py_lower password.data == password.data ||
         py_upper password.data == password.data) then
      (false, [])
    else if conf.digit_required.getD false &&
        !(("0123456789").data.any (fun digit => py_substring [digit] password.data)) then
      (false, [])
    else if conf.special_required.getD false &&
        !(special_chars.any (fun sp => py_substring [sp] password.data)) then
      (false, [])
    else if conf.dictionary_check_enabled.getD false &&
        dictionary_scan conf.dictionary_file password then
      (false, [dict_msg])
    else
      (true, [])

/-- The boolean returned by `password_is_strong`: the source function's
return value, forgetting the log. -/
def password_is_strong (checker : Option PasswordChecker)
    (password : String) : Bool :=
  (password_is_strong_log checker password).1

/-! ## Error classifier (`change_password`, app.py lines 90-111)

`change_password` dispatches to one of the two adapter variants and maps the
ldap3 exceptions escaping it to the application's `Error` exception class,
with one user-facing message per exception family. -/

/-- The separator used on app.py line 102:
`e.message.split('check_password_restrictions: ')`. -/
def SEP : List Char := ("check_password_restrictions: ").data

/-- Boolean prefix test versus the prefix relation, specialized to
character lists. -/
theorem isPrefixOf_eq_true_iff {l1 l2 : List Char} :
    l1.isPrefixOf l2 = true ↔ l1 <+: l2 :=
  List.isPrefixOf_iff_prefix

/-- First occurrence of `sep` in a string: `some (before, after)` when `sep`
occurs, split around its leftmost occurrence; `none` otherwise. -/
def split_first (sep : List Char) : List Char → Option (List Char × List Char)
  | [] => if sep.isEmpty then some ([], []) else none
  | c :: rest =>
    if sep.isPrefixOf (c :: rest) then some ([], (c :: rest).drop sep.length)
    else
      match split_first sep rest with
      | none => none
      | some (pre, post) => some (c :: pre, post)

theorem split_first_eq_append {sep : List Char} :
    ∀ {s pre post : List Char}, split_first sep s = some (pre, post) →
      s = pre ++ sep ++ post := by
  intro s
  induction s with
  | nil =>
    intro pre post h
    simp only [split_first] at h
    by_cases hsep : sep.isEmpty
    · simp only [hsep, if_pos] at h
      obtain ⟨rfl, rfl⟩ := Prod.mk.injEq .. ▸ Option.some.injEq .. ▸ h
      simp_all [List.isEmpty_iff]
    · simp [hsep] at h
  | cons c rest ih =>
    intro pre post h
    simp only [split_first] at h
    by_cases hpre : sep.isPrefixOf (c :: rest)
    · simp only [hpre, if_pos] at h
      obtain ⟨rfl, rfl⟩ := Prod.mk.injEq .. ▸ Option.some.injEq .. ▸ h
      have hp : sep <+: c :: rest := isPrefixOf_eq_true_iff.mp hpre
      obtain ⟨t, ht⟩ := hp
      simp [← ht]
    · simp only [hpre, if_neg, Bool.false_eq_true, not_false_iff] at h
      cases hrec : split_first sep rest with
      | none => simp [hrec] at h
      | some pq =>
        obtain ⟨p, q⟩ := pq
        simp only [hrec] at h
        obtain ⟨rfl, rfl⟩ := Prod.mk.injEq .. ▸ Option.some.injEq .. ▸ h
        simp [ih hrec]

theorem split_first_none {sep : List Char} :
    ∀ {s : List Char}, split_first sep s = none → ¬ sep <:+: s := by
  intro s
  induction s with
  | nil =>
    intro h
    simp only [split_first] at h
    by_cases hsep : sep.isEmpty
    · simp [hsep] at h
    · simp_all [List.isEmpty_iff, List.infix_nil]
  | cons c rest ih =>
    intro h
    simp only [split_first] at h
    by_cases hpre : sep.isPrefixOf (c :: rest)
    · simp [hpre] at h
    · simp only [hpre, if_neg, Bool.false_eq_true, not_false_iff] at h
      cases hrec : split_first sep rest with
      | none =>
        intro hinf
        rcases List.infix_cons_iff.mp hinf with hc | hc
        · exact hpre (isPrefixOf_eq_true_iff.mpr hc)
        · exact ih hrec hc
      | some pq => obtain ⟨p, q⟩ := pq; simp [hrec] at h

theorem split_first_post_lt {sep : List Char} (hsep : sep ≠ [])
    {s pre post : List Char} (h : split_first sep s = some (pre, post)) :
    post.length < s.length := by
  have := split_first_eq_append h
  subst this
  have : 0 < sep.length := List.length_pos.mpr hsep
  simp only [List.length_append]
  omega

/-- Python `msg.split('check_password_restrictions: ')[-1]`: the text after
the last occurrence of `SEP` (the whole string when `SEP` does not occur). -/
def py_split_last (s : List Char) : List Char :=
  match h : split_first SEP s with
  | none => s
  | some (_, post) => py_split_last post
termination_by s.length
decreasing_by
  exact split_first_post_lt (by decide) h

/-- Exceptions the two adapter variants can raise into `change_password`
(app.py lines 97-111), by handler family. The payload of
`constraint_violation` is the exception's `message` attribute; the payloads
of the other constructors are logged, never shown. -/
inductive LdapExc where
  | bind_error (detail : String)
  | invalid_credentials (detail : String)
  | username_mandatory (detail : String)
  | constraint_violation (message : String)
  | socket_open_error (detail : String)
  | other_ldap (detail : String)
deriving DecidableEq, Repr

/-- The message of the `Error` raised by `change_password` for each ldap3
exception family (app.py lines 97-111). -/
def classify (e : LdapExc) : String :=
  match e with
  | LdapExc.bind_error _ => "Username or password is incorrect!"
  | LdapExc.invalid_credentials _ => "Username or password is incorrect!"
  | LdapExc.username_mandatory _ => "Username or password is incorrect!"
  | LdapExc.constraint_violation message =>
      String.mk (py_capitalize (py_split_last message.data))
  | LdapExc.socket_open_error _ => "Unable to connect to the remote server."
  | LdapExc.other_ldap _ =>
      "Encountered an unexpected error while communicating with the remote server."

/-! ## Backend directory adapters (app.py lines 114-137)

The two adapter variants are embedded as the trace of ldap3 operations they
issue, in order. The directory server's response to the `find_user_dn`
search (app.py lines 133-137: first matching dn, or `None` for no match) is
abstracted as `LdapDirectory.search_response`. -/

/-- The directory server seen by one backend: `search_response uid` is the
list of dns the server returns for the `{uid}`-substituted search filter. -/
structure LdapDirectory where
  search_response : String → List String

/-- Embedding of `find_user_dn` (app.py lines 133-137): first matching dn,
or `none` when the response is empty. -/
def find_user_dn (dir : LdapDirectory) (uid : String) : Option String :=
  match dir.search_response uid with
  | [] => none
  | dn :: _ => some dn

/-- One ldap3 operation issued by an adapter. `connect` carries the `user`
and `password` parameters of the `Connection` (both `none` for the anonymous
connection). The two modify operations record their positional arguments:
`modify_password_standard dn a1 a2` is
`c.extend.standard.modify_password(dn, a1, a2)` and
`modify_password_microsoft dn a1 a2` is
`c.extend.microsoft.modify_password(dn, a1, a2)`. -/
inductive LdapOp where
  | connect (user : Option String) (password : Option String)
  | bind
  | search (uid : String)
  | modify_password_standard (user_dn : Option String) (a1 a2 : String)
  | modify_password_microsoft (user_dn : Option String) (a1 a2 : String)
deriving DecidableEq, Repr

/-- Embedding of `change_password_ldap` (app.py lines 114-121): anonymous
connection and dn search, then a second connection bound as the resolved dn
with the old password, then the standard modify-password operation with
arguments `(user_dn, old_pass, new_pass)`. -/
def change_password_ldap (dir : LdapDirectory)
    (username old_pass new_pass : String) : List LdapOp :=
  let user_dn := find_user_dn dir username
  [LdapOp.connect none none,
   LdapOp.search username,
   LdapOp.connect user_dn (some old_pass),
   LdapOp.bind,
   LdapOp.modify_password_standard user_dn old_pass new_pass]

/-- Embedding of `change_password_ad` (app.py lines 124-130): one connection
bound as `username@ad_domain` with the old password, dn search within it,
then the Microsoft modify-password extended operation with arguments
`(user_dn, new_pass, old_pass)`. -/
def change_password_ad (ad_domain : String) (dir : LdapDirectory)
    (username old_pass new_pass : String) : List LdapOp :=
  let user := username ++ "@" ++ ad_domain
  let user_dn := find_user_dn dir username
  [LdapOp.connect (some user) (some old_pass),
   LdapOp.bind,
   LdapOp.search username,
   LdapOp.modify_password_microsoft user_dn new_pass old_pass]

/-- Which modify-password operation a trace used. -/
inductive ModifyKind where
  | standard
  | microsoft
deriving DecidableEq, Repr

/-- The first modify-password operation of a trace, with its kind and
positional arguments. -/
def modify_call : List LdapOp → Option (ModifyKind × Option String × String × String)
  | [] => none
  | LdapOp.modify_password_standard dn a1 a2 :: _ =>
      some (ModifyKind.standard, dn, a1, a2)
  | LdapOp.modify_password_microsoft dn a1 a2 :: _ =>
      some (ModifyKind.microsoft, dn, a1, a2)
  | _ :: rest => modify_call rest

/-! ## Change orchestrator (`change_passwords`, app.py lines 70-87)

Each configured backend section is embedded as a key (the section name)
together with a behaviour: what its `change_password` invocation does as a
function of the two password arguments. A behaviour either returns normally,
raises the application's `Error` class (everything `change_password` itself
raises after classification), or raises any other exception (for example a
`KeyError` from a missing configuration key, which none of the handlers in
`change_password` or `change_passwords` catches). The orchestrator is
embedded as the trace of `change_password` invocations it makes plus its
outcome. -/

/-- An exception escaping one `change_password` invocation: `appError` is
the application's `Error` class (app.py line 181), `otherExc` anything
else. -/
inductive Exc where
  | appError (msg : String)
  | otherExc (msg : String)
deriving DecidableEq, Repr

/-- The behaviour of one backend's `change_password` invocation as a
function of the password pair it is called with (first argument `old_pass`,
second `new_pass` at the call site). -/
def Behavior : Type := String → String → Except Exc Unit

/-- One configured backend: its section key and its behaviour. -/
def Backend : Type := String × Behavior

/-- Which call site of `change_passwords` issued a call: line 78 (apply) or
line 84 (revert). -/
inductive CallSite where
  | apply
  | revert
deriving DecidableEq, Repr

/-- One `change_password` invocation issued by `change_passwords`: call
site, backend section key, and the two password arguments in positional
order. -/
structure Call where
  site : CallSite
  backend : String
  arg_old : String
  arg_new : String
deriving DecidableEq, Repr

/-- The call the orchestrator's apply loop makes for backend `b`. -/
def applyCall (old_pass new_pass : String) (b : Backend) : Call :=
  ⟨CallSite.apply, b.1, old_pass, new_pass⟩

/-- The call the orchestrator's revert loop makes for backend `b` (old and
new swapped, app.py line 84). -/
def revertCall (old_pass new_pass : String) (b : Backend) : Call :=
  ⟨CallSite.revert, b.1, new_pass, old_pass⟩

/-- The revert loop of `change_passwords` (app.py lines 81-86), run over
the already-reversed `changed` list: each backend is called with
`(new_pass, old_pass)`; an `Error` from a revert is logged and the loop
continues; any other exception propagates immediately (the bare
`except Error` clause does not catch it), aborting the loop. Returns the
calls made and the propagating exception, if any. -/
def revert_loop (changed : List Backend) (old_pass new_pass : String) :
    List Call × Option Exc :=
  match changed with
  | [] => ([], none)
  | b :: rest =>
    match b.2 new_pass old_pass with
    | Except.ok _ =>
      let r := revert_loop rest old_pass new_pass
      (revertCall old_pass new_pass b :: r.1, r.2)
    | Except.error (Exc.appError _) =>
      let r := revert_loop rest old_pass new_pass
      (revertCall old_pass new_pass b :: r.1, r.2)
    | Except.error (Exc.otherExc m) =>
      ([revertCall old_pass new_pass b], some (Exc.otherExc m))

/-- The apply loop of `change_passwords` (app.py lines 70-87) with the
`changed` accumulator explicit. Each backend is called with
`(old_pass, new_pass)`; on success its key is appended to `changed`; on an
`Error` the revert loop runs over `reversed(changed)` and the original
`Error` is re-raised (unless a revert raised a non-`Error` exception, which
replaces it); any other exception propagates immediately with no revert.
Returns the trace of `change_password` calls and the outcome. -/
def change_passwords_from (backends : List Backend)
    (old_pass new_pass : String) (changed : List Backend) :
    List Call × Except Exc Unit :=
  match backends with
  | [] => ([], Except.ok ())
  | b :: rest =>
    match b.2 old_pass new_pass with
    | Except.ok _ =>
      let r := change_passwords_from rest old_pass new_pass (changed ++ [b])
      (applyCall old_pass new_pass b :: r.1, r.2)
    | Except.error (Exc.appError m) =>
      let r := revert_loop changed.reverse old_pass new_pass
      (applyCall old_pass new_pass b :: r.1,
        match r.2 with
        | none => Except.error (Exc.appError m)
        | some ex => Except.error ex)
    | Except.error (Exc.otherExc m) =>
      ([applyCall old_pass new_pass b], Except.error (Exc.otherExc m))

/-- Embedding of `change_passwords` (app.py lines 70-87). The `backends`
list is the configured `ldap` / `ldap:*` sections in declaration order. -/
def change_passwords (backends : List Backend)
    (old_pass new_pass : String) : List Call × Except Exc Unit :=
  change_passwords_from backends old_pass new_pass []

/-! ## HTTP handler (`post_index`, app.py lines 28-49)

Only the in-scope part is embedded: the confirmation check, the strength
check, the call to `change_passwords`, and which page (or uncaught
exception) results. -/

/-- The form fields of one change request. -/
structure Form where
  username : String
  old_password : String
  new_password : String
  confirm_password : String

/-- Message of app.py line 36, built without an apostrophe literal. -/
def mismatch_msg : String :=
  "Password doesn" ++ String.mk [apostrophe_char] ++ "t match the confirmation!"

/-- Message of app.py line 39. -/
def strength_msg : String :=
  "Password does not meet complexity/strength requirements!"

/-- What `post_index` produces: an error page, a success page, or an
exception that escapes the handler (only non-`Error` exceptions can). -/
inductive PostResult where
  | page_error (msg : String)
  | page_success
  | raised (msg : String)
deriving DecidableEq, Repr

/-- Embedding of `post_index` (app.py lines 28-49): reject when the new and
confirmation passwords differ, then when the strength check fails, otherwise
run `change_passwords`; an `Error` from it renders an error page with the
classified message, success renders the success page. Returns the backend
call trace together with the result. -/
def post_index (checker : Option PasswordChecker) (backends : List Backend)
    (form : Form) : List Call × PostResult :=
  if form.new_password ≠ form.confirm_password then
    ([], PostResult.page_error mismatch_msg)
  else if !(password_is_strong checker form.new_password) then
    ([], PostResult.page_error strength_msg)
  else
    let r := change_passwords backends form.old_password form.new_password
    match r.2 with
    | Except.ok _ => (r.1, PostResult.page_success)
    | Except.error (Exc.appError m) => (r.1, PostResult.page_error m)
    | Except.error (Exc.otherExc m) => (r.1, PostResult.raised m)

/-! ## Orchestrator lemmas -/

/-- When no revert raises a non-`Error` exception, the revert loop calls
every backend of `changed` in order, with old and new swapped, and lets the
original error propagate. -/
theorem revert_loop_no_other (old_pass new_pass : String) :
    ∀ l : List Backend,
      (∀ b ∈ l, ∀ s, b.2 new_pass old_pass ≠ Except.error (Exc.otherExc s)) →
      revert_loop l old_pass new_pass =
        (l.map (revertCall old_pass new_pass), none) := by
  intro l
  induction l with
  | nil => intro _; rfl
  | cons b rest ih =>
    intro h
    have hb := h b (List.mem_cons_self ..)
    have hrest := ih (fun x hx s => h x (List.mem_cons_of_mem _ hx) s)
    simp only [revert_loop, List.map_cons]
    cases hbv : b.2 new_pass old_pass with
    | ok u => simp [hrest]
    | error e =>
      cases e with
      | appError m => simp [hrest]
      | otherExc m => exact absurd hbv (hb m)

/-- When every backend succeeds, the apply loop calls each backend once in
order with `(old_pass, new_pass)` and returns normally, whatever the
accumulator holds. -/
theorem change_passwords_from_ok (old_pass new_pass : String) :
    ∀ (bs changed : List Backend),
      (∀ b ∈ bs, b.2 old_pass new_pass = Except.ok ()) →
      change_passwords_from bs old_pass new_pass changed =
        (bs.map (applyCall old_pass new_pass), Except.ok ()) := by
  intro bs
  induction bs with
  | nil => intro changed _; rfl
  | cons b rest ih =>
    intro changed h
    have hb := h b (List.mem_cons_self ..)
    have hrest := ih (changed ++ [b]) (fun x hx => h x (List.mem_cons_of_mem _ hx))
    simp only [change_passwords_from, List.map_cons, hb, hrest]

/-- When the backends of `pre` succeed, the next backend `kb` raises the
application's `Error`, and no revert raises a non-`Error` exception, the
run applies `pre` and `kb` in order, then reverts `changed ++ pre` in
reverse order with the passwords swapped, and re-raises `kb`'s `Error`. -/
theorem change_passwords_from_fail (old_pass new_pass m : String)
    (kb : Backend) (post : List Backend)
    (hk : kb.2 old_pass new_pass = Except.error (Exc.appError m)) :
    ∀ (pre changed : List Backend),
      (∀ b ∈ pre, b.2 old_pass new_pass = Except.ok ()) →
      (∀ b ∈ changed ++ pre, ∀ s,
        b.2 new_pass old_pass ≠ Except.error (Exc.otherExc s)) →
      change_passwords_from (pre ++ kb :: post) old_pass new_pass changed =
        (pre.map (applyCall old_pass new_pass) ++
           applyCall old_pass new_pass kb ::
             (changed ++ pre).reverse.map (revertCall old_pass new_pass),
         Except.error (Exc.appError m)) := by
  intro pre
  induction pre with
  | nil =>
    intro changed h1 h2
    have hrev := revert_loop_no_other old_pass new_pass changed.reverse
      (fun x hx s => h2 x (by simpa using List.mem_reverse.mp hx) s)
    simp only [List.nil_append, change_passwords_from, hk, hrev,
      List.map_nil, List.append_nil]
  | cons b rest ih =>
    intro changed h1 h2
    have hb := h1 b (List.mem_cons_self ..)
    have hrest := ih (changed ++ [b])
      (fun x hx => h1 x (List.mem_cons_of_mem _ hx))
      (by
        intro x hx s
        apply h2 x
        simpa [List.append_assoc] using hx)
    simp only [List.cons_append, change_passwords_from, hb, List.append_eq,
      List.map_cons]
    rw [hrest]
    simp [List.append_assoc]

/-- When the backends of `pre` succeed and the next backend `kb` raises a
non-`Error` exception, the run stops at `kb` with that exception and makes
no revert call at all. -/
theorem change_passwords_from_other (old_pass new_pass m : String)
    (kb : Backend) (post : List Backend)
    (hk : kb.2 old_pass new_pass = Except.error (Exc.otherExc m)) :
    ∀ (pre changed : List Backend),
      (∀ b ∈ pre, b.2 old_pass new_pass = Except.ok ()) →
      change_passwords_from (pre ++ kb :: post) old_pass new_pass changed =
        (pre.map (applyCall old_pass new_pass) ++
           [applyCall old_pass new_pass kb],
         Except.error (Exc.otherExc m)) := by
  intro pre
  induction pre with
  | nil =>
    intro changed h1
    simp only [List.nil_append, change_passwords_from, hk, List.map_nil,
      List.append_nil, List.nil_append]
  | cons b rest ih =>
    intro changed h1
    have hb := h1 b (List.mem_cons_self ..)
    have hrest := ih (changed ++ [b])
      (fun x hx => h1 x (List.mem_cons_of_mem _ hx))
    simp only [List.cons_append, change_passwords_from, hb, List.append_eq,
      List.map_cons]
    rw [hrest]

/-! ## Demo behaviours for witnesses -/

/-- A backend whose `change_password` always succeeds. -/
def b_ok : Behavior := fun _ _ => Except.ok ()

/-- A backend whose `change_password` always raises the classified
`Error('Username or password is incorrect!')`. -/
def b_fail_error : Behavior :=
  fun _ _ => Except.error (Exc.appError "Username or password is incorrect!")

/-- A backend whose `change_password` raises an exception that is not the
application's `Error` class (a `KeyError` from a missing `ad_domain` key). -/
def b_fail_other : Behavior :=
  fun _ _ => Except.error (Exc.otherExc "KeyError: ad_domain")

/-- A backend that succeeds when called with the original old password but
raises a classified `Error` on the swapped (revert) call. -/
def b_revert_fails : Behavior :=
  fun o _ =>
    if o = "OldPass1" then Except.ok ()
    else Except.error (Exc.appError "Unable to connect to the remote server.")

/-- C1: when the backends before position `k` succeed and the backend at
position `k` raises the application's classified `Error` (and the reverts,
as classified operations, raise at worst that `Error` class), the
orchestrator's trace is: one apply call per backend up to and including the
failed one, followed by exactly `k` revert calls, one per already-succeeded
backend, in exactly the reverse of the apply order, each with the old and
new passwords swapped; the failed backend receives no revert call. -/
theorem change_passwords_reverse_compensation
    (pre : List Backend) (kb : Backend) (post : List Backend)
    (old_pass new_pass m : String)
    (h1 : ∀ b ∈ pre, b.2 old_pass new_pass = Except.ok ())
    (h2 : ∀ b ∈ pre, ∀ s,
      b.2 new_pass old_pass ≠ Except.error (Exc.otherExc s))
    (hk : kb.2 old_pass new_pass = Except.error (Exc.appError m)) :
    change_passwords (pre ++ kb :: post) old_pass new_pass =
      (pre.map (applyCall old_pass new_pass) ++
         applyCall old_pass new_pass kb ::
           pre.reverse.map (revertCall old_pass new_pass),
       Except.error (Exc.appError m)) := by
  have h := change_passwords_from_fail old_pass new_pass m kb post hk pre []
    h1 (by simpa using h2)
  simpa [change_passwords] using h

/-- Witness for C1: backends `[ldap, ldap:2, ldap:3]` where the first two
succeed and the third raises a classified `Error`; the trace applies all
three in order and reverts `ldap:2` then `ldap`, swapped, with the third
backend's `Error` as the outcome. -/
theorem change_passwords_reverse_compensation_witness :
    change_passwords
        ([("ldap", b_ok), ("ldap:2", b_ok)] ++ ("ldap:3", b_fail_error) :: [])
        "OldPass1" "NewPass2" =
      ([("ldap", b_ok), ("ldap:2", b_ok)].map (applyCall "OldPass1" "NewPass2") ++
         applyCall "OldPass1" "NewPass2" ("ldap:3", b_fail_error) ::
           [("ldap", b_ok), ("ldap:2", b_ok)].reverse.map
             (revertCall "OldPass1" "NewPass2"),
       Except.error (Exc.appError "Username or password is incorrect!")) :=
  change_passwords_reverse_compensation
    [("ldap", b_ok), ("ldap:2", b_ok)] ("ldap:3", b_fail_error) []
    "OldPass1" "NewPass2" "Username or password is incorrect!"
    (by simp [List.forall_mem_cons, b_ok])
    (by simp [List.forall_mem_cons, b_ok])
    rfl

/-- C2: when the backends before position `k` succeed and the backend at
position `k` raises a classified `Error`, the outcome delivered to the
caller is that backend's classified `Error`, however many of the
(classified) compensation attempts fail - revert `Error`s are logged and
never replace it. -/
theorem change_passwords_first_error_surfaces
    (pre : List Backend) (kb : Backend) (post : List Backend)
    (old_pass new_pass m : String)
    (h1 : ∀ b ∈ pre, b.2 old_pass new_pass = Except.ok ())
    (h2 : ∀ b ∈ pre, ∀ s,
      b.2 new_pass old_pass ≠ Except.error (Exc.otherExc s))
    (hk : kb.2 old_pass new_pass = Except.error (Exc.appError m)) :
    (change_passwords (pre ++ kb :: post) old_pass new_pass).2 =
      Except.error (Exc.appError m) := by
  have h := change_passwords_from_fail old_pass new_pass m kb post hk pre []
    h1 (by simpa using h2)
  simp [change_passwords, h]

/-- Witness for C2: two backends succeed, the third raises a classified
`Error`, and both reverts raise classified `Error`s of their own; the
outcome is still the third backend's `Error`. -/
theorem change_passwords_first_error_surfaces_witness :
    (change_passwords
        ([("ldap", b_revert_fails), ("ldap:2", b_revert_fails)] ++
          ("ldap:3", b_fail_error) :: [])
        "OldPass1" "NewPass2").2 =
      Except.error (Exc.appError "Username or password is incorrect!") :=
  change_passwords_first_error_surfaces
    [("ldap", b_revert_fails), ("ldap:2", b_revert_fails)]
    ("ldap:3", b_fail_error) []
    "OldPass1" "NewPass2" "Username or password is incorrect!"
    (by simp [List.forall_mem_cons, b_revert_fails])
    (by simp [List.forall_mem_cons, b_revert_fails])
    rfl

/-- C5: when every configured backend's `change_password` succeeds, the run
returns success and its trace is one apply call per backend - in particular
no revert call is ever issued to any backend. -/
theorem change_passwords_all_ok_no_revert
    (backends : List Backend) (old_pass new_pass : String)
    (h : ∀ b ∈ backends, b.2 old_pass new_pass = Except.ok ()) :
    change_passwords backends old_pass new_pass =
        (backends.map (applyCall old_pass new_pass), Except.ok ()) ∧
      ∀ c ∈ (change_passwords backends old_pass new_pass).1,
        c.site ≠ CallSite.revert := by
  have hmain : change_passwords backends old_pass new_pass =
      (backends.map (applyCall old_pass new_pass), Except.ok ()) :=
    change_passwords_from_ok old_pass new_pass backends [] h
  refine ⟨hmain, ?_⟩
  rw [hmain]
  intro c hc
  simp only [List.mem_map] at hc
  obtain ⟨b, _, rfl⟩ := hc
  simp [applyCall]

/-- Witness for C5: two always-succeeding backends produce two apply calls,
no revert, and success. -/
theorem change_passwords_all_ok_no_revert_witness :
    change_passwords [("ldap", b_ok), ("ldap:ad", b_ok)] "OldPass1" "NewPass2" =
        ([("ldap", b_ok), ("ldap:ad", b_ok)].map (applyCall "OldPass1" "NewPass2"),
         Except.ok ()) ∧
      ∀ c ∈ (change_passwords [("ldap", b_ok), ("ldap:ad", b_ok)]
          "OldPass1" "NewPass2").1,
        c.site ≠ CallSite.revert :=
  change_passwords_all_ok_no_revert [("ldap", b_ok), ("ldap:ad", b_ok)]
    "OldPass1" "NewPass2" (by simp [List.forall_mem_cons, b_ok])

/-- C9: compensation is triggered only by the application's classified
`Error` class. When a backend's `change_password` raises any other
exception (for instance a `KeyError` from a missing configuration key), the
bare `except Error` clause does not catch it: the run aborts with that
exception and the trace contains no revert call to any already-changed
backend. -/
theorem change_passwords_unclassified_aborts_without_revert
    (pre : List Backend) (kb : Backend) (post : List Backend)
    (old_pass new_pass m : String)
    (h1 : ∀ b ∈ pre, b.2 old_pass new_pass = Except.ok ())
    (hk : kb.2 old_pass new_pass = Except.error (Exc.otherExc m)) :
    change_passwords (pre ++ kb :: post) old_pass new_pass =
        (pre.map (applyCall old_pass new_pass) ++
           [applyCall old_pass new_pass kb],
         Except.error (Exc.otherExc m)) ∧
      ∀ c ∈ (change_passwords (pre ++ kb :: post) old_pass new_pass).1,
        c.site ≠ CallSite.revert := by
  have hmain : change_passwords (pre ++ kb :: post) old_pass new_pass =
      (pre.map (applyCall old_pass new_pass) ++
         [applyCall old_pass new_pass kb],
       Except.error (Exc.otherExc m)) :=
    change_passwords_from_other old_pass new_pass m kb post hk pre [] h1
  refine ⟨hmain, ?_⟩
  rw [hmain]
  intro c hc
  simp only [List.mem_append, List.mem_map, List.mem_singleton] at hc
  rcases hc with ⟨b, _, rfl⟩ | rfl <;> simp [applyCall]

/-- Witness for C9: the first backend succeeds, the second raises a
`KeyError`-style exception; the run aborts with it and no revert call is
made to the first backend. -/
theorem change_passwords_unclassified_aborts_without_revert_witness :
    change_passwords ([("ldap", b_ok)] ++ ("ldap:ad", b_fail_other) :: [])
        "OldPass1" "NewPass2" =
        ([("ldap", b_ok)].map (applyCall "OldPass1" "NewPass2") ++
           [applyCall "OldPass1" "NewPass2" ("ldap:ad", b_fail_other)],
         Except.error (Exc.otherExc "KeyError: ad_domain")) ∧
      ∀ c ∈ (change_passwords ([("ldap", b_ok)] ++ ("ldap:ad", b_fail_other) :: [])
          "OldPass1" "NewPass2").1,
        c.site ≠ CallSite.revert :=
  change_passwords_unclassified_aborts_without_revert
    [("ldap", b_ok)] ("ldap:ad", b_fail_other) [] "OldPass1" "NewPass2"
    "KeyError: ad_domain"
    (by simp [List.forall_mem_cons, b_ok])
    rfl

/-! ## Adapter and handler claims -/

/-- C4: per change request, the generic adapter issues the backend's native
(standard) modify-password operation with the old password as first password
argument and the new one second, while the domain-controller adapter issues
the vendor-specific (Microsoft) extended operation with the new password
first and the old one second - the two positional orders are mirror images
of each other, never normalized. -/
theorem adapter_modify_password_argument_orders
    (dir : LdapDirectory) (ad_domain username old_pass new_pass : String) :
    modify_call (change_password_ldap dir username old_pass new_pass) =
        some (ModifyKind.standard, find_user_dn dir username,
          old_pass, new_pass) ∧
      modify_call (change_password_ad ad_domain dir username old_pass new_pass) =
        some (ModifyKind.microsoft, find_user_dn dir username,
          new_pass, old_pass) :=
  ⟨rfl, rfl⟩

/-- C6: a request whose new password fails the strength validator is
rejected before any backend operation: the backend call trace of
`post_index` is empty (zero apply calls, zero revert calls) and an error
page is rendered (the confirmation-mismatch page when the confirmation also
differs, otherwise the strength-failure page). -/
theorem post_index_weak_password_no_backend_calls
    (checker : Option PasswordChecker) (backends : List Backend) (form : Form)
    (h : password_is_strong checker form.new_password = false) :
    (post_index checker backends form).1 = [] ∧
      ((post_index checker backends form).2 =
          PostResult.page_error mismatch_msg ∨
        (post_index checker backends form).2 =
          PostResult.page_error strength_msg) := by
  unfold post_index
  by_cases hm : form.new_password ≠ form.confirm_password
  · simp [hm]
  · simp [hm, h]

/-- The `password_checker` section of the end-to-end scenario:
`min_length=8, digit_required=true`, everything else absent. -/
def checker_ex : PasswordChecker := ⟨some 8, none, some true, none, none, []⟩

/-- The form of the end-to-end scenario: user alice, new password `short`
confirmed correctly. -/
def form_ex : Form := ⟨"alice", "OldPass1", "short", "short"⟩

/-- Witness for C6: the scenario request is rejected on strength with an
empty backend call trace, against a configured backend. -/
theorem post_index_weak_password_no_backend_calls_witness :
    (post_index (some checker_ex) [("ldap", b_ok)] form_ex).1 = [] ∧
      ((post_index (some checker_ex) [("ldap", b_ok)] form_ex).2 =
          PostResult.page_error mismatch_msg ∨
        (post_index (some checker_ex) [("ldap", b_ok)] form_ex).2 =
          PostResult.page_error strength_msg) :=
  post_index_weak_password_no_backend_calls (some checker_ex)
    [("ldap", b_ok)] form_ex (by decide)

/-- C10: when the mixed-case requirement is enabled and the password
contains no cased character (each character is fixed by both case
foldings), the password equals both its lower-case and its upper-case
folding, so the mixed-case check's condition holds and the validator
rejects the password (provided it reaches the check, i.e. it is long
enough). -/
theorem mixed_case_check_fails_uncased_passwords
    (conf : PasswordChecker) (password : String)
    (hmixed : conf.mixed_case_required = some true)
    (huncased : ∀ c ∈ password.data,
      py_lower_char c = c ∧ py_upper_char c = c)
    (hlen : conf.min_length.getD 8 ≤ password.length) :
    py_lower password.data = password.data ∧
      py_upper password.data = password.data ∧
      password_is_strong (some conf) password = false := by
  have hlow : py_lower password.data = password.data := by
    simpa [py_lower] using
      List.map_congr_left (fun c hc => (huncased c hc).1)
  have hup : py_upper password.data = password.data := by
    simpa [py_upper] using
      List.map_congr_left (fun c hc => (huncased c hc).2)
  refine ⟨hlow, hup, ?_⟩
  have hnlt : ¬ (password.length < conf.min_length.getD 8) := by omega
  simp only [password_is_strong, password_is_strong_log, hnlt, if_false,
    hmixed, hlow, Option.getD_some, beq_self_eq_true, Bool.true_or,
    Bool.true_and, if_true]

/-- A `password_checker` section with only the mixed-case requirement
enabled. -/
def mixed_policy : PasswordChecker := ⟨none, some true, none, none, none, []⟩

/-- Witness for C10: `1234!@#$` (digits and punctuation only, length 8)
equals both of its case foldings and is rejected under the mixed-case
policy. -/
theorem mixed_case_check_fails_uncased_passwords_witness :
    py_lower ("1234!@#$").data = ("1234!@#$").data ∧
      py_upper ("1234!@#$").data = ("1234!@#$").data ∧
      password_is_strong (some mixed_policy) "1234!@#$" = false :=
  mixed_case_check_fails_uncased_passwords mixed_policy ("1234!@#$")
    rfl (by decide) (by decide)

/-! ## Claim C3: the validator's contract (corrected)

`password_is_strong` returns only a boolean. The only explanations it
produces are `LOG.warning` messages, and only the length check (line 155)
and the dictionary check (line 175) emit one; the mixed-case, digit and
special-character checks return `False` silently. -/

/-- Counterexample for C3 as stated: under the mixed-case policy, the
all-lower-case password `abcdefgh` fails the validator, yet no reason at
all is surfaced - the claimed reasons sequence naming the first failing
check does not exist. -/
theorem password_is_strong_failure_without_reason :
    (password_is_strong_log (some mixed_policy) "abcdefgh").1 = false ∧
      (password_is_strong_log (some mixed_policy) "abcdefgh").2 = [] := by
  decide

/-- C3 as amended: the validator returns a bare boolean; explanations
exist only as logged warnings, namely exactly the too-short message when
the length check fails, and never anything outside the too-short and
dictionary messages - so the mixed-case, digit and special-character
checks fail without any surfaced explanation. -/
theorem password_is_strong_reasons_only_length_and_dictionary :
    (∀ (conf : PasswordChecker) (password : String),
        password.length < conf.min_length.getD 8 →
        password_is_strong_log (some conf) password =
          (false, [too_short_msg])) ∧
      ∀ (checker : Option PasswordChecker) (password : String),
        ∀ r ∈ (password_is_strong_log checker password).2,
          r = too_short_msg ∨ r = dict_msg := by
  constructor
  · intro conf password h
    simp [password_is_strong_log, h]
  · intro checker password r hr
    cases checker with
    | none => simp [password_is_strong_log] at hr
    | some conf =>
      simp only [password_is_strong_log] at hr
      split_ifs at hr <;> simp_all

/-- Witness for the amended C3: the scenario's too-short password yields
the single logged too-short explanation. -/
theorem password_is_strong_reasons_only_length_and_dictionary_witness :
    password_is_strong_log (some checker_ex) "short" =
      (false, [too_short_msg]) :=
  password_is_strong_reasons_only_length_and_dictionary.1 checker_ex ("short")
    (by decide)

/-! ## Claim C7: the dictionary check -/

/-- Python's substring test agrees with the infix relation. -/
theorem py_substring_iff (pat : List Char) :
    ∀ hay : List Char, py_substring pat hay = true ↔ pat <:+: hay := by
  intro hay
  induction hay with
  | nil =>
    simp [py_substring, List.isEmpty_iff, List.infix_nil]
  | cons c t ih =>
    simp only [py_substring, Bool.or_eq_true, ih]
    constructor
    · rintro (hp | hi)
      · exact (isPrefixOf_eq_true_iff.mp hp).isInfix
      · exact hi.trans (List.infix_cons (List.infix_refl t))
    · intro h
      rcases List.infix_cons_iff.mp h with hp | hi
      · exact Or.inl (isPrefixOf_eq_true_iff.mpr hp)
      · exact Or.inr hi

/-- For a non-empty string, `isspace()` is false exactly when `rstrip()`
leaves something. -/
theorem py_isspace_false_iff_rstrip_ne {s : List Char} (hs : s ≠ []) :
    py_isspace s = false ↔ py_rstrip s ≠ [] := by
  have h1 : s.isEmpty = false := by simp [List.isEmpty_iff, hs]
  have h2 : py_rstrip s = [] ↔ s.all py_isspace_char = true := by
    simp [py_rstrip, List.dropWhile_eq_nil_iff, List.all_eq_true]
  constructor
  · intro h hnil
    rw [h2] at hnil
    simp [py_isspace, h1, hnil] at h
  · intro h
    cases hall : s.all py_isspace_char with
    | false => simp [py_isspace, h1, hall]
    | true => exact absurd (h2.mpr hall) h

/-- Modelled from the spec's wording of the dictionary check, for
comparison with the code's `dictionary_scan`: some dictionary line carrying
a non-empty entry whose case-folded form is a substring of the case-folded
password. -/
def dictionary_check_spec (dict : List String) (password : String) : Prop :=
  ∃ line ∈ dict, py_rstrip line.data ≠ [] ∧
    py_lower (py_rstrip line.data) <:+: py_lower password.data

/-- C7: over wordlist lines as Python file iteration yields them (never the
empty string), the dictionary loop of the validator fails the password
exactly when some non-empty dictionary entry, compared case-insensitively,
is a substring of the password: whitespace-only lines are skipped, every
other line's `rstrip` is a non-empty entry, and the comparison lower-cases
both sides. -/
theorem dictionary_scan_matches_spec (dict : List String) (password : String)
    (hlines : ∀ line ∈ dict, line ≠ "") :
    (dictionary_scan dict password = true ↔
      dictionary_check_spec dict password) := by
  unfold dictionary_scan dictionary_check_spec
  rw [List.any_eq_true]
  constructor
  · rintro ⟨line, hl, hcond⟩
    rw [Bool.and_eq_true, Bool.not_eq_true'] at hcond
    have hne : line.data ≠ [] := by
      intro hd
      exact hlines line hl (String.ext (by simpa using hd))
    exact ⟨line, hl, (py_isspace_false_iff_rstrip_ne hne).mp hcond.1,
      (py_substring_iff _ _).mp hcond.2⟩
  · rintro ⟨line, hl, hr, hsub⟩
    have hne : line.data ≠ [] := by
      intro hd
      exact hr (by simp [py_rstrip, hd])
    refine ⟨line, hl, ?_⟩
    rw [Bool.and_eq_true, Bool.not_eq_true']
    exact ⟨(py_isspace_false_iff_rstrip_ne hne).mpr hr,
      (py_substring_iff _ _).mpr hsub⟩

/-- A `password_checker` section with only the dictionary check enabled,
over a wordlist containing the single entry `summer`. -/
def summer_policy : PasswordChecker :=
  ⟨none, none, none, none, some true, ["summer"]⟩

/-- Witness for C7: over the wordlist `summer`, `Summer2024!` hits the
dictionary (case-insensitively) and the validator rejects it. -/
theorem dictionary_scan_matches_spec_witness :
    (∀ line ∈ ["summer"], line ≠ "") ∧
      (dictionary_scan ["summer"] "Summer2024!" = true ↔
        dictionary_check_spec ["summer"] "Summer2024!") ∧
      dictionary_scan ["summer"] "Summer2024!" = true ∧
      password_is_strong (some summer_policy) "Summer2024!" = false :=
  ⟨by decide,
   dictionary_scan_matches_spec ["summer"] "Summer2024!" (by decide),
   by decide, by decide⟩

/-! ## Claim C8: the constraint-violation message -/

/-- Characterization of `py_split_last`: its result contains no further
occurrence of the separator and is either the whole string (no separator
present) or exactly the part after an occurrence of the separator - that
is, everything up to and including the separator has been stripped. -/
theorem py_split_last_spec :
    ∀ (n : Nat) (s : List Char), s.length ≤ n →
      ¬ SEP <:+: py_split_last s ∧
        (py_split_last s = s ∨ (SEP ++ py_split_last s) <:+ s) := by
  intro n
  induction n with
  | zero =>
    intro s hs
    have hnil : s = [] := List.length_eq_zero.mp (Nat.le_zero.mp hs)
    subst hnil
    rw [py_split_last]
    split
    · exact ⟨split_first_none (by assumption), Or.inl rfl⟩
    · rename_i pre post heq
      have := split_first_post_lt (show SEP ≠ [] by decide) heq
      simp at this
  | succ n ih =>
    intro s hs
    rw [py_split_last]
    split
    · exact ⟨split_first_none (by assumption), Or.inl rfl⟩
    · rename_i pre post heq
      have hlt : post.length < s.length :=
        split_first_post_lt (show SEP ≠ [] by decide) heq
      have hrec := ih post (by omega)
      have hsplit : s = pre ++ SEP ++ post := split_first_eq_append heq
      refine ⟨hrec.1, Or.inr ?_⟩
      rcases hrec.2 with hcase | hcase
      · rw [hcase, hsplit, List.append_assoc]
        exact List.suffix_append pre (SEP ++ post)
      · refine hcase.trans ?_
        rw [hsplit, List.append_assoc]
        exact (List.suffix_append SEP post).trans
          (List.suffix_append pre (SEP ++ post))

/-- C8: the `Error` message for a backend constraint violation (the
`PolicyRejected` case) is the capitalization-normalized form of a piece of
the backend's rejection message that contains no further occurrence of the
internal `check_password_restrictions: ` prefix and is either the whole
message (no prefix present) or exactly the suffix after an occurrence of
that prefix - everything up to and including the prefix is stripped. -/
theorem classify_constraint_violation_strips_and_capitalizes
    (message : String) :
    ∃ informative : List Char,
      classify (LdapExc.constraint_violation message) =
          String.mk (py_capitalize informative) ∧
        ¬ SEP <:+: informative ∧
        informative <:+ message.data ∧
        (informative = message.data ∨
          (SEP ++ informative) <:+ message.data) := by
  refine ⟨py_split_last message.data, rfl, ?_⟩
  have h := py_split_last_spec message.data.length message.data (le_refl _)
  refine ⟨h.1, ?_, h.2⟩
  rcases h.2 with hc | hc
  · rw [hc]
  · exact (List.suffix_append SEP (py_split_last message.data)).trans hc
